import Mathlib

/-!
Verification of the TCP port forwarder in `client.py`.

The program has three parts:
* `pipe(src, dst)` — one copy direction of a relay: reads chunks of at most
  `BUFFER_SIZE` bytes from `src`, writes them to `dst` with `sendall`, stops
  on an empty read (EOF) or any exception, and in a `finally` block closes
  both sockets, each close wrapped in its own `try/except: pass`.
* `start_forwarder(local_ip, local_port, remote_ip, remote_port)` — creates a
  stream socket, sets `SO_REUSEADDR`, binds it, listens with backlog 50, and
  loops forever: accept a connection (not guarded by any `try`), log it, dial
  the remote with a 10-second timeout (guarded: on failure log, close the
  accepted socket and `continue`), and on success start two `pipe` threads.
* `main()` — interactively collects a remote address and mapping entries,
  building a list of forwarding rules, then starts one `start_forwarder`
  thread per rule.

The embedding below is a shallow one: socket I/O is modelled by scripts of
read/write/accept outcomes, and each Python function becomes a Lean function
of its script.  Byte strings are `List Nat`.
-/

/-- `BUFFER_SIZE = 65535` from `client.py`. -/
def BUFFER_SIZE : Nat := 65535

/-- Connect timeout passed to `socket.create_connection` in
`start_forwarder` (`timeout=10`). -/
def connectTimeout : Nat := 10

/-- Outcome of one `src.recv(BUFFER_SIZE)` call: either it returns a byte
string (the empty string signalling EOF) or it raises an exception. -/
inductive RecvResult where
  | ok (data : List Nat)
  | exn
deriving DecidableEq, Repr

/-- Outcome of one `dst.sendall(data)` call: success or an exception. -/
inductive SendResult where
  | ok
  | exn
deriving DecidableEq, Repr

/-- How the `while True` loop inside `pipe` ended. -/
inductive PipeEnd where
  | eof       -- `if not data: break`
  | readErr   -- `src.recv` raised, caught by the bare `except`
  | writeErr  -- `dst.sendall` raised, caught by the bare `except`
deriving DecidableEq, Repr

/-- The `while True` loop of `pipe`, run against a script of recv outcomes
and a script of sendall outcomes.  Returns the chunks actually delivered to
the destination and how the loop ended.  A finite read script is a complete
execution: an exhausted script stands for the stream ending (EOF), and an
exhausted write script stands for the remaining writes succeeding. -/
def pipeLoop : List RecvResult → List SendResult → List (List Nat) × PipeEnd
  | [], _ => ([], .eof)
  | .exn :: _, _ => ([], .readErr)
  | .ok [] :: _, _ => ([], .eof)
  | .ok d :: rs, [] =>
      let p := pipeLoop rs []
      (d :: p.1, p.2)
  | .ok _ :: _, .exn :: _ => ([], .writeErr)
  | .ok d :: rs, .ok :: ws =>
      let p := pipeLoop rs ws
      (d :: p.1, p.2)

/-- The chunks a reader of the script sees before the first EOF or read
error: the data `pipe` can ever legitimately forward. -/
def goodChunks : List RecvResult → List (List Nat)
  | [] => []
  | .exn :: _ => []
  | .ok [] :: _ => []
  | .ok d :: rs => d :: goodChunks rs

/-- State of one Python-level socket handle as far as `close` is concerned.
`closed` is the handle's closed flag; `closeFails` says whether the
OS-level close underneath would raise `OSError`. -/
structure ConnState where
  closed : Bool
  closeFails : Bool
deriving DecidableEq, Repr

/-- `socket.close()`: marks the Python-level handle closed (CPython sets the
closed flag before releasing the descriptor), is a no-op on an
already-closed handle, and may raise from the OS-level close on the first
real close.  Returns the new state and whether the call raised. -/
def sockClose (c : ConnState) : ConnState × Bool :=
  if c.closed then (c, false)
  else ({ c with closed := true }, c.closeFails)

/-- `try: c.close()` followed by `except: pass`, as written twice in the
`finally` block of `pipe`: any exception from the close is swallowed.
Returns the new state and whether anything escaped (never). -/
def guardedClose (c : ConnState) : ConnState × Bool :=
  let r := sockClose c
  (r.1, false)

/-- The whole `finally` block of `pipe`: close `src` then close `dst`, each
under its own `try/except: pass`.  The second close runs whatever the first
did, and nothing escapes the block. -/
def pipeCleanup (src dst : ConnState) : (ConnState × ConnState) × Bool :=
  let s := guardedClose src
  let d := guardedClose dst
  ((s.1, d.1), false)

/-- Result of one full execution of `pipe`. -/
structure PipeRun where
  delivered : List (List Nat)
  ended : PipeEnd
  srcFinal : ConnState
  dstFinal : ConnState
  raisedOut : Bool
deriving DecidableEq, Repr

/-- A full execution of `pipe(src, dst)`: the copy loop inside
`try/except: pass` (so read/write exceptions end the loop but do not
escape), then the `finally` block closing both handles.  Nothing `pipe`
does raises out of it. -/
def pipeRun (reads : List RecvResult) (writes : List SendResult)
    (src dst : ConnState) : PipeRun :=
  let loop := pipeLoop reads writes
  let cl := pipeCleanup src dst
  ⟨loop.1, loop.2, cl.1.1, cl.1.2, false⟩

/-!  The listener loop of `start_forwarder`. -/

/-- Outcome of one iteration head of the accept loop: `listener.accept()`
either yields a connection — `conn dialOk`, tagged with whether the
subsequent `socket.create_connection` to the remote succeeds — or raises. -/
inductive AcceptStep where
  | conn (dialOk : Bool)
  | exn
deriving DecidableEq, Repr

/-- What became of one accepted connection. -/
inductive ConnOutcome where
  | relayed        -- dial succeeded: two `pipe` threads started over the pair
  | closedNoRelay  -- dial failed: the accepted socket was closed, no relay
deriving DecidableEq, Repr

/-- Log lines the program emits, one constructor per `log`/print site;
`traceback` is the traceback Python's default `threading.excepthook` prints
when a thread body dies on an uncaught exception. -/
inductive LogEvent where
  | forwarding  -- "[+] Forwarding local ---> remote"
  | incoming    -- "[+] Incoming connection from addr"
  | dialFailed  -- "[!] Failed connecting to remote - e"
  | traceback
deriving DecidableEq, Repr

/-- Result of running the `while True` accept loop of `start_forwarder`
against a script of accept outcomes. -/
structure ForwarderRun where
  conns : List ConnOutcome
  logs : List LogEvent
  raised : Bool
deriving DecidableEq, Repr

/-- The accept loop of `start_forwarder`.  `listener.accept()` is not inside
any `try`, so an exception from it propagates and ends the function: the
rest of the script is never reached, and nothing is logged for it.  A
failed dial is caught: it is logged, the accepted socket is closed, and
`continue` resumes the loop.  A successful dial starts a relay and resumes
the loop.  An exhausted script is a loop still blocked in `accept`. -/
def forwarderRun : List AcceptStep → ForwarderRun
  | [] => ⟨[], [], false⟩
  | .exn :: _ => ⟨[], [], true⟩
  | .conn true :: rest =>
      let r := forwarderRun rest
      ⟨.relayed :: r.conns, .incoming :: r.logs, r.raised⟩
  | .conn false :: rest =>
      let r := forwarderRun rest
      ⟨.closedNoRelay :: r.conns, .incoming :: .dialFailed :: r.logs, r.raised⟩

/-- One forwarding rule, as built by `main` from one accepted mapping entry
(`mappings.append((local_ip, local_port, remote_ip, remote_port))`). -/
structure ForwardRule where
  local_address : String
  local_port : Int
  remote_address : String
  remote_port : Int
deriving DecidableEq, Repr

/-- Socket operations `start_forwarder` performs, in order, for the trace
view of its setup and loop. -/
inductive SockOp where
  | create (stream : Bool)          -- socket.socket(AF_INET, SOCK_STREAM)
  | setReuseAddr                    -- setsockopt(SOL_SOCKET, SO_REUSEADDR, 1)
  | bindTo (addr : String) (p : Int)  -- listener.bind((local_ip, local_port))
  | listen (backlog : Nat)          -- listener.listen(50)
  | accept                          -- listener.accept()
  | dial (timeout : Nat)            -- socket.create_connection(..., timeout=10)
  | closeClient                     -- client_sock.close() after a failed dial
deriving DecidableEq, Repr

/-- Is this operation a bind? -/
def isBindOp : SockOp → Bool
  | .bindTo _ _ => true
  | _ => false

/-- Is this operation an accept? -/
def isAcceptOp : SockOp → Bool
  | .accept => true
  | _ => false

/-- Socket operations of the accept loop: each iteration accepts, then
dials with the 10-second timeout; a failed dial also closes the accepted
socket.  An accept exception ends the loop after the raising accept. -/
def acceptOps : List AcceptStep → List SockOp
  | [] => []
  | .exn :: _ => [.accept]
  | .conn true :: rest => .accept :: .dial connectTimeout :: acceptOps rest
  | .conn false :: rest =>
      .accept :: .dial connectTimeout :: .closeClient :: acceptOps rest

/-- The full socket-operation trace of `start_forwarder rule`: create a
stream socket, set `SO_REUSEADDR`, bind to the rule's local address and
port, listen with backlog 50, then run the accept loop. -/
def forwarderTrace (rule : ForwardRule) (steps : List AcceptStep) : List SockOp :=
  .create true :: .setReuseAddr :: .bindTo rule.local_address rule.local_port ::
    .listen 50 :: acceptOps steps

/-!  One mapping run inside its thread, and `main`'s thread-per-mapping
composition. -/

/-- Result of running one mapping's `start_forwarder` thread to the end of
its script. -/
structure MappingRun where
  started : Bool           -- the listener bound, listened and entered its loop
  conns : List ConnOutcome
  logs : List LogEvent
  died : Bool              -- the thread ended on an uncaught exception
deriving DecidableEq, Repr

/-- One mapping's thread: `threading.Thread(target=start_forwarder, ...)`.
`bindOk` says whether `listener.bind` succeeds.  On bind failure the
exception is uncaught, so the thread dies before the forwarding banner and
before any accept; Python's default `threading.excepthook` prints a
traceback.  On success the banner is logged and the accept loop runs; if
the loop itself dies on an accept exception the same excepthook prints a
traceback. -/
def runMapping (bindOk : Bool) (steps : List AcceptStep) : MappingRun :=
  if bindOk then
    let r := forwarderRun steps
    ⟨true, r.conns, .forwarding :: r.logs ++ (if r.raised then [.traceback] else []),
      r.raised⟩
  else
    ⟨false, [], [.traceback], true⟩

/-- `main`'s launch phase: one independent daemon thread per mapping, no
shared state between them. -/
def runMappings (ms : List (Bool × List AcceptStep)) : List MappingRun :=
  ms.map fun m => runMapping m.1 m.2

/-!  The interactive input collection of `main`. -/

/-- Python's `str.strip()` with no argument: remove leading and trailing
whitespace. -/
def pyStrip (s : String) : String :=
  ⟨((s.data.dropWhile Char.isWhitespace).reverse.dropWhile Char.isWhitespace).reverse⟩

/-- Accumulator for `pySplit`: walk the characters, collecting the current
field in reverse in `acc` and emitting it at each whitespace run. -/
def fieldsAux : List Char → List Char → List (List Char)
  | [], acc => if acc = [] then [] else [acc.reverse]
  | c :: cs, acc =>
      if c.isWhitespace then
        if acc = [] then fieldsAux cs []
        else acc.reverse :: fieldsAux cs []
      else fieldsAux cs (c :: acc)

/-- Python's `str.split()` with no argument: split on runs of whitespace,
discarding empty fields. -/
def pySplit (s : String) : List String :=
  (fieldsAux s.data []).map fun l => ⟨l⟩

/-- Value of a nonempty all-digit character run, else `none`. -/
def digitsVal (l : List Char) : Option Nat :=
  if l ≠ [] ∧ l.all Char.isDigit then
    some (l.foldl (fun a c => a * 10 + (c.toNat - 48)) 0)
  else none

/-- Python's `int(s)`, as `main` applies it to fields of an already-split
entry: surrounding whitespace is stripped, then an optional sign followed
by a nonempty run of digits parses; anything else raises `ValueError`
(`none`).  (Digit-group underscores, accepted by CPython, are not
modelled; no claim depends on them.) -/
def pyParseInt (s : String) : Option Int :=
  match (pyStrip s).data with
  | '-' :: rest => (digitsVal rest).map fun n => -(n : Int)
  | '+' :: rest => (digitsVal rest).map fun n => (n : Int)
  | l => (digitsVal l).map fun n => (n : Int)

/-- Messages `main` prints, one constructor per print site. -/
inductive MainMsg where
  | remoteRequired  -- "Remote IP is required. Exiting."
  | formatMsg       -- "Format must be: local_ip local_port remote_port"
  | portsMsg        -- "Port numbers must be integers."
  | added           -- "[+] Added: ..."
  | noMappings      -- "No mappings defined. Exiting."
  | startingAll     -- "[+] Starting all forwards..." / "[+] All mappings active..."
deriving DecidableEq, Repr

/-- How `main` classifies one mapping entry: `entry = input(...).strip()`;
an empty entry ends collection; a split with other than three fields is a
format error; a non-integer port field is a port error; otherwise a
`ForwardRule` is built from the three fields and the shared remote
address. -/
inductive EntryResult where
  | empty
  | badFormat
  | badPorts
  | rule (r : ForwardRule)
deriving DecidableEq, Repr

/-- Parse one raw input line the way the body of `main`'s `while True`
input loop does. -/
def parseEntry (remote raw : String) : EntryResult :=
  let entry := pyStrip raw
  if entry = "" then .empty
  else
    match pySplit entry with
    | [a, p1, p2] =>
        match pyParseInt p1, pyParseInt p2 with
        | some lp, some rp => .rule ⟨a, lp, remote, rp⟩
        | _, _ => .badPorts
    | _ => .badFormat

/-- The input-collection loop of `main`, run against a script of raw input
lines: accumulates rules and messages until an empty entry (or the end of
the script, which stands for the user ending input) stops it. -/
def collectLoop (remote : String) : List String → List ForwardRule × List MainMsg
  | [] => ([], [])
  | raw :: rest =>
      match parseEntry remote raw with
      | .empty => ([], [])
      | .badFormat =>
          let r := collectLoop remote rest
          (r.1, .formatMsg :: r.2)
      | .badPorts =>
          let r := collectLoop remote rest
          (r.1, .portsMsg :: r.2)
      | .rule fr =>
          let r := collectLoop remote rest
          (fr :: r.1, .added :: r.2)

/-- Result of `main` up to (and including) starting the listener threads. -/
structure MainResult where
  exitedEarly : Bool        -- `return` taken before the launch phase
  rules : List ForwardRule
  listenersStarted : Nat    -- `start_forwarder` threads started
  messages : List MainMsg
deriving DecidableEq, Repr

/-- `main`, up to starting the listener threads: reads the remote address
(stripped), returning at once if it is empty; otherwise collects mappings;
returns if none were accepted; otherwise starts one listener thread per
rule.  Binding happens only inside listener threads, so an early return
binds nothing. -/
def mainRun (remoteRaw : String) (entries : List String) : MainResult :=
  let remote := pyStrip remoteRaw
  if remote = "" then ⟨true, [], 0, [.remoteRequired]⟩
  else
    let c := collectLoop remote entries
    if c.1 = [] then ⟨true, [], 0, c.2 ++ [.noMappings]⟩
    else ⟨false, c.1, c.1.length, c.2 ++ [.startingAll]⟩

/-!  Helper lemmas. -/

/-- The chunks `pipeLoop` delivers are an initial segment of the chunks
readable from the script. -/
theorem pipeLoop_initSegment (reads : List RecvResult) :
    ∀ writes : List SendResult, (pipeLoop reads writes).1 <+: goodChunks reads := by
  induction reads with
  | nil => intro writes; simp [pipeLoop, goodChunks]
  | cons r rs ih =>
    intro writes
    cases r with
    | exn => simp [pipeLoop, goodChunks]
    | ok d =>
      cases d with
      | nil => simp [pipeLoop, goodChunks]
      | cons b bs =>
        cases writes with
        | nil =>
          obtain ⟨t, ht⟩ := ih []
          exact ⟨t, by simp [pipeLoop, goodChunks, ht]⟩
        | cons w ws =>
          cases w with
          | exn => simp [pipeLoop, goodChunks]
          | ok =>
            obtain ⟨t, ht⟩ := ih ws
            exact ⟨t, by simp [pipeLoop, goodChunks, ht]⟩

/-- When every scripted write succeeds, `pipeLoop` delivers every readable
chunk. -/
theorem pipeLoop_all_writes_ok (reads : List RecvResult) :
    ∀ writes : List SendResult, (∀ w ∈ writes, w = SendResult.ok) →
      (pipeLoop reads writes).1 = goodChunks reads := by
  induction reads with
  | nil => intro writes _; simp [pipeLoop, goodChunks]
  | cons r rs ih =>
    intro writes hok
    cases r with
    | exn => simp [pipeLoop, goodChunks]
    | ok d =>
      cases d with
      | nil => simp [pipeLoop, goodChunks]
      | cons b bs =>
        cases writes with
        | nil => simp [pipeLoop, goodChunks, ih [] (by simp)]
        | cons w ws =>
          have hw : w = SendResult.ok := hok w (by simp)
          subst hw
          have hws : ∀ w ∈ ws, w = SendResult.ok := fun x hx => hok x (by simp [hx])
          simp [pipeLoop, goodChunks, ih ws hws]

/-- A prefix of chunk lists flattens to a prefix of the flattened bytes. -/
theorem isPrefix_flatten {l₁ l₂ : List (List Nat)} (h : l₁ <+: l₂) :
    l₁.flatten <+: l₂.flatten := by
  obtain ⟨t, rfl⟩ := h
  exact ⟨t.flatten, (List.flatten_append _ _).symm⟩

/-- Every chunk readable from the script was returned by some scripted
`recv`. -/
theorem goodChunks_mem (reads : List RecvResult) (d : List Nat) :
    d ∈ goodChunks reads → RecvResult.ok d ∈ reads := by
  induction reads with
  | nil => simp [goodChunks]
  | cons r rs ih =>
    cases r with
    | exn => simp [goodChunks]
    | ok c =>
      cases c with
      | nil => simp [goodChunks]
      | cons b bs =>
        intro hm
        rcases (List.mem_cons).1 hm with h | h
        · subst h; exact List.mem_cons_self _ _
        · exact List.mem_cons_of_mem _ (ih h)

/-- No operation of the accept loop is a bind. -/
theorem acceptOps_no_bind (steps : List AcceptStep) :
    ∀ op ∈ acceptOps steps, isBindOp op = false := by
  induction steps with
  | nil => simp [acceptOps]
  | cons s rest ih =>
    cases s with
    | exn => simp [acceptOps, isBindOp]
    | conn b => cases b <;> simp_all [acceptOps, isBindOp]

/-!  Claim theorems. -/

/-- C1 — Paired closure: however the copy loop of `pipe` terminates (EOF,
read error or write error, under any read/write script) and whatever state
the two handles start in, after `pipe` returns both the source and the
destination handle are closed. -/
theorem pipe_paired_closure (reads : List RecvResult) (writes : List SendResult)
    (src dst : ConnState) :
    (pipeRun reads writes src dst).srcFinal.closed = true
    ∧ (pipeRun reads writes src dst).dstFinal.closed = true := by
  constructor
  · by_cases h : src.closed <;>
      simp [pipeRun, pipeCleanup, guardedClose, sockClose, h]
  · by_cases h : dst.closed <;>
      simp [pipeRun, pipeCleanup, guardedClose, sockClose, h]

/-- C2 — Order and content preservation: under any read script whose chunks
respect the `recv(BUFFER_SIZE)` bound and any write script, the chunks
`pipe` delivers are an initial segment of the chunks read (so bytes are
never invented, reordered or duplicated, and the flattened byte stream is
preserved in order); when no write fails, every chunk read before the first
EOF or read error is delivered; every chunk read was produced by a scripted
`recv`, and every delivered chunk is at most `BUFFER_SIZE` bytes. -/
theorem pipe_order_preservation (reads : List RecvResult) (writes : List SendResult)
    (hsize : ∀ d : List Nat, RecvResult.ok d ∈ reads → d.length ≤ BUFFER_SIZE) :
    (pipeLoop reads writes).1 <+: goodChunks reads
    ∧ ((∀ w ∈ writes, w = SendResult.ok) →
        (pipeLoop reads writes).1 = goodChunks reads)
    ∧ (pipeLoop reads writes).1.flatten <+: (goodChunks reads).flatten
    ∧ ∀ d ∈ (pipeLoop reads writes).1, d.length ≤ BUFFER_SIZE := by
  refine ⟨pipeLoop_initSegment reads writes, pipeLoop_all_writes_ok reads writes,
    isPrefix_flatten (pipeLoop_initSegment reads writes), ?_⟩
  intro d hd
  exact hsize d (goodChunks_mem reads d
    ((pipeLoop_initSegment reads writes).subset hd))

/-- C2 witness: the guarantees at a concrete two-chunk script with all
writes succeeding. -/
theorem pipe_order_preservation_witness :
    (pipeLoop [RecvResult.ok [1, 2], RecvResult.ok [3]] [SendResult.ok, SendResult.ok]).1
      <+: goodChunks [RecvResult.ok [1, 2], RecvResult.ok [3]]
    ∧ ((∀ w ∈ [SendResult.ok, SendResult.ok], w = SendResult.ok) →
        (pipeLoop [RecvResult.ok [1, 2], RecvResult.ok [3]]
          [SendResult.ok, SendResult.ok]).1
          = goodChunks [RecvResult.ok [1, 2], RecvResult.ok [3]])
    ∧ (pipeLoop [RecvResult.ok [1, 2], RecvResult.ok [3]]
        [SendResult.ok, SendResult.ok]).1.flatten
        <+: (goodChunks [RecvResult.ok [1, 2], RecvResult.ok [3]]).flatten
    ∧ ∀ d ∈ (pipeLoop [RecvResult.ok [1, 2], RecvResult.ok [3]]
        [SendResult.ok, SendResult.ok]).1, d.length ≤ BUFFER_SIZE :=
  pipe_order_preservation [RecvResult.ok [1, 2], RecvResult.ok [3]]
    [SendResult.ok, SendResult.ok]
    (by
      intro d hd
      simp only [List.mem_cons, List.not_mem_nil, or_false] at hd
      rcases hd with h | h <;>
        (injection h with h; subst h; decide))

/-- C6 — Idempotent close: a `close` on an already-closed handle is a no-op
and raises nothing; each guarded close of `pipe`'s cleanup swallows any
exception its close raises; and the cleanup always performs both close
attempts independently and lets nothing escape, so no close failure is ever
treated as a relay-ending error. -/
theorem pipe_close_idempotent (c : ConnState) (h : c.closed = true) :
    sockClose c = (c, false)
    ∧ (∀ d : ConnState, (guardedClose d).2 = false)
    ∧ (∀ s d : ConnState, (pipeCleanup s d).2 = false
        ∧ (pipeCleanup s d).1 = ((guardedClose s).1, (guardedClose d).1)) := by
  refine ⟨by simp [sockClose, h], fun d => rfl, fun s d => ⟨rfl, rfl⟩⟩

/-- C6 witness: a second close of a handle whose OS-level close would even
raise is a no-op. -/
theorem pipe_close_idempotent_witness :
    sockClose ⟨true, true⟩ = (⟨true, true⟩, false) :=
  (pipe_close_idempotent ⟨true, true⟩ rfl).1

/-- C3 counterexample: on the script where the first accept raises and a
second connection then arrives, nothing is logged for the failure, the loop
does not continue (the later connection is never accepted, so no connection
outcome exists), and the exception propagates out of `start_forwarder` —
refuting the claim that an accept failure is logged and the accept loop
survives it. -/
theorem accept_failure_not_survived :
    (forwarderRun [AcceptStep.exn, AcceptStep.conn true]).logs = []
    ∧ (forwarderRun [AcceptStep.exn, AcceptStep.conn true]).conns = []
    ∧ (forwarderRun [AcceptStep.exn, AcceptStep.conn true]).raised = true := by
  decide

/-- C3 (amended) — Accept failure is fatal to the Listener: an error raised
by `listener.accept()` propagates out of `start_forwarder` (the call is not
inside any `try`), terminating that Listener's accept loop; no subsequent
connection is accepted, `start_forwarder` itself logs nothing for the
failure, and the Listener's thread dies with only the runtime's uncaught-
exception traceback. -/
theorem accept_failure_fatal (rest : List AcceptStep) :
    forwarderRun (AcceptStep.exn :: rest) = ⟨[], [], true⟩
    ∧ runMapping true (AcceptStep.exn :: rest) =
        ⟨true, [], [LogEvent.forwarding, LogEvent.traceback], true⟩ := by
  exact ⟨rfl, rfl⟩

/-- C4 — Dial-failure containment: when the dial (bounded by the 10-second
connect timeout) for an accepted connection fails, `start_forwarder` logs
the incoming connection and the dial failure, closes the accepted
connection without creating a relay for it, and continues the accept loop
exactly as it would have run on the remaining script — so the failure
affects only that one connection attempt. -/
theorem dial_failure_contained (rest : List AcceptStep) :
    forwarderRun (AcceptStep.conn false :: rest) =
      ⟨ConnOutcome.closedNoRelay :: (forwarderRun rest).conns,
       LogEvent.incoming :: LogEvent.dialFailed :: (forwarderRun rest).logs,
       (forwarderRun rest).raised⟩
    ∧ connectTimeout = 10 := by
  exact ⟨rfl, rfl⟩

/-- C5 — Bind-failure handling: a mapping whose bind fails produces a
thread that never starts its Listener (no banner, no accepted connection,
permanently dead for the run), whose failure surfaces as the runtime's
uncaught-exception traceback; and every mapping's run is a function of its
own configuration alone, so all other mappings are unaffected. -/
theorem bind_failure_isolated (ms : List (Bool × List AcceptStep)) (i : Nat)
    (steps : List AcceptStep) (hb : ms[i]? = some (false, steps)) :
    (runMappings ms)[i]? = some ⟨false, [], [LogEvent.traceback], true⟩
    ∧ ∀ j : Nat, (runMappings ms)[j]? = (ms[j]?).map fun m => runMapping m.1 m.2 := by
  constructor
  · simp [runMappings, List.getElem?_map, hb, runMapping]
  · intro j
    simp [runMappings, List.getElem?_map]

/-- C5 witness: two mappings, the first failing to bind, the second binding
and accepting one relayed connection. -/
theorem bind_failure_isolated_witness :
    (runMappings [(false, []), (true, [AcceptStep.conn true])])[0]? =
      some ⟨false, [], [LogEvent.traceback], true⟩ :=
  (bind_failure_isolated [(false, []), (true, [AcceptStep.conn true])] 0 []
    (by decide)).1

/-- C9 — Bind configuration: the socket-operation trace of
`start_forwarder` opens with creating one stream socket, enabling
`SO_REUSEADDR`, binding to the rule's local address and port, and listening
with backlog 50 (≥ 50); that setup segment contains no accept, the bind is
the only bind of the whole trace, and every accept happens in the loop
segment after it. -/
theorem bind_configuration (rule : ForwardRule) (steps : List AcceptStep) :
    forwarderTrace rule steps =
      [SockOp.create true, SockOp.setReuseAddr,
       SockOp.bindTo rule.local_address rule.local_port, SockOp.listen 50]
        ++ acceptOps steps
    ∧ (forwarderTrace rule steps).filter (fun op => isBindOp op) =
        [SockOp.bindTo rule.local_address rule.local_port]
    ∧ (∀ op ∈ [SockOp.create true, SockOp.setReuseAddr,
        SockOp.bindTo rule.local_address rule.local_port, SockOp.listen 50],
        isAcceptOp op = false)
    ∧ 50 ≥ 50 := by
  refine ⟨rfl, ?_, ?_, le_refl 50⟩
  · have hnone : (acceptOps steps).filter (fun op => isBindOp op) = [] := by
      rw [List.filter_eq_nil_iff]
      intro op hop
      simpa using acceptOps_no_bind steps op hop
    have hdecomp : forwarderTrace rule steps =
        [SockOp.create true, SockOp.setReuseAddr,
         SockOp.bindTo rule.local_address rule.local_port, SockOp.listen 50]
          ++ acceptOps steps := rfl
    rw [hdecomp, List.filter_append, hnone, List.append_nil]
    rfl
  · intro op hop
    simp only [List.mem_cons, List.not_mem_nil, or_false] at hop
    rcases hop with rfl | rfl | rfl | rfl <;> rfl

/-- C7 — Zero-mappings exit: whenever the remote address is accepted but
input collection yields no rule, `main` returns early — after the
collection messages it prints the no-mappings message, and it starts no
listener thread (binding happens only inside listener threads). -/
theorem zero_mappings_exit (remoteRaw : String) (entries : List String)
    (hr : pyStrip remoteRaw ≠ "")
    (h0 : (collectLoop (pyStrip remoteRaw) entries).1 = []) :
    mainRun remoteRaw entries =
      ⟨true, [], 0, (collectLoop (pyStrip remoteRaw) entries).2 ++ [MainMsg.noMappings]⟩ := by
  simp [mainRun, hr, h0]

/-- C7 witness: a run whose only entry is empty ends collection with zero
rules and exits without starting a listener. -/
theorem zero_mappings_exit_witness :
    mainRun "203.0.113.5" [""] = ⟨true, [], 0, [MainMsg.noMappings]⟩ := by
  have h := zero_mappings_exit "203.0.113.5" [""] (by decide) (by decide)
  exact h.trans (by decide)

/-- C8 — Malformed-entry rejection: an entry classified as bad (wrong
field count or unparseable port) contributes no rule and exactly one
rejection message, and collection continues with the remaining entries; a
well-formed entry appends exactly one rule; an empty (stripped) entry ends
collection; and the classification is as the code computes it: an empty
stripped entry is `empty`, a stripped entry with other than three fields
is `badFormat`, and three fields with an unparseable port field is
`badPorts`. -/
theorem entry_validation (remote raw : String) (rest : List String) :
    ((parseEntry remote raw = EntryResult.badFormat
        ∨ parseEntry remote raw = EntryResult.badPorts) →
      (collectLoop remote (raw :: rest)).1 = (collectLoop remote rest).1
      ∧ ((collectLoop remote (raw :: rest)).2
            = MainMsg.formatMsg :: (collectLoop remote rest).2
          ∨ (collectLoop remote (raw :: rest)).2
            = MainMsg.portsMsg :: (collectLoop remote rest).2))
    ∧ (∀ fr, parseEntry remote raw = EntryResult.rule fr →
        collectLoop remote (raw :: rest) =
          (fr :: (collectLoop remote rest).1,
           MainMsg.added :: (collectLoop remote rest).2))
    ∧ (parseEntry remote raw = EntryResult.empty →
        collectLoop remote (raw :: rest) = ([], []))
    ∧ (pyStrip raw = "" → parseEntry remote raw = EntryResult.empty)
    ∧ (pyStrip raw ≠ "" → (pySplit (pyStrip raw)).length ≠ 3 →
        parseEntry remote raw = EntryResult.badFormat)
    ∧ (∀ a p1 p2, pyStrip raw ≠ "" → pySplit (pyStrip raw) = [a, p1, p2] →
        (pyParseInt p1 = none ∨ pyParseInt p2 = none) →
        parseEntry remote raw = EntryResult.badPorts) := by
  refine ⟨?_, ?_, ?_, ?_, ?_, ?_⟩
  · intro h
    rcases h with h | h <;> simp [collectLoop, h]
  · intro fr h
    simp [collectLoop, h]
  · intro h
    simp [collectLoop, h]
  · intro h
    simp [parseEntry, h]
  · intro hne h3
    simp only [parseEntry]
    rw [if_neg hne]
    rcases hsp : pySplit (pyStrip raw) with _ | ⟨a, _ | ⟨b, _ | ⟨c, _ | ⟨d, tl⟩⟩⟩⟩
    · rfl
    · rfl
    · rfl
    · exact absurd (by simp [hsp]) h3
    · rfl
  · intro a p1 p2 hne hsp hbad
    simp only [parseEntry]
    rw [if_neg hne, hsp]
    rcases hp1 : pyParseInt p1 with _ | lp <;>
      rcases hp2 : pyParseInt p2 with _ | rp <;>
      simp_all

/-- C8 witness: the spec's scenario entry `127.0.0.1 abc 22` is rejected —
no rule is created and one rejection message is printed — while collection
would continue. -/
theorem entry_validation_witness :
    (collectLoop "203.0.113.5" ["127.0.0.1 abc 22"]).1 = []
    ∧ ((collectLoop "203.0.113.5" ["127.0.0.1 abc 22"]).2 = [MainMsg.formatMsg]
       ∨ (collectLoop "203.0.113.5" ["127.0.0.1 abc 22"]).2 = [MainMsg.portsMsg]) := by
  have h := (entry_validation "203.0.113.5" "127.0.0.1 abc 22" []).1 (Or.inr (by decide))
  simpa [collectLoop] using h

/-- C10 — Empty-remote-address exit: when the stripped remote address is
empty, `main` prints the required-address message and returns at once —
independently of any entries, with no rule built and no listener thread
started. -/
theorem empty_remote_exit (remoteRaw : String) (entries : List String)
    (h : pyStrip remoteRaw = "") :
    mainRun remoteRaw entries = ⟨true, [], 0, [MainMsg.remoteRequired]⟩ := by
  simp [mainRun, h]

/-- C10 witness: a whitespace-only remote address exits immediately even
with a well-formed mapping entry pending. -/
theorem empty_remote_exit_witness :
    mainRun "   " ["127.0.0.1 2222 22"] = ⟨true, [], 0, [MainMsg.remoteRequired]⟩ :=
  empty_remote_exit "   " ["127.0.0.1 2222 22"] (by decide)
